import Mathlib

set_option autoImplicit false

/- Shallow embedding of the Itch web scraper (src/Itch/locator.py,
   src/Itch/scraper.py, src/Itch/scrape_data.py).

   Selenium, the filesystem and S3 are modelled as explicit environments;
   printing and sleeping are dropped; Python exceptions become Except.
   Machine randomness (uuid4) is modelled by an injected sequence of
   identifier strings. -/

/-- Scalar values living in the scraped record table: raw attribute
strings, or results of an attached type conversion. -/
inductive PyVal where
  | str : String → PyVal
  | int : Int → PyVal
deriving DecidableEq

/-- Cell of the record table: a Python value or Python None. -/
abbrev Cell := Option PyVal

/-- Outcome of `find_element(by, value).get_attribute(html_attribute)` on
one page: the element lookup raises NoSuchElementException (`notFound`),
or an element is found and get_attribute returns a string or Python None
(`found`). -/
inductive LocateResult where
  | notFound : LocateResult
  | found : Option String → LocateResult
deriving DecidableEq

/-- External driver environment: given a page url, a By strategy, a search
value and an html attribute name, the combined result of navigation plus
element lookup plus attribute read for that page. -/
abbrev LocateEnv := String → String → String → String → LocateResult

/-- Exception raised when a locator builder is used before it is fully
defined (locator.py line 6). -/
structure LocatorNotDefinedError where
  msg : String
deriving DecidableEq

/-- Frozen dataclass `Locator` (locator.py lines 9-30): html_attribute,
by (strategy), value, default_if_not_found. The Python field `by` is a
Lean keyword and is rendered `by_`. -/
structure Locator where
  html_attribute : String
  by_ : String
  value : String
  default_if_not_found : Cell
deriving DecidableEq

/-- First intermediate builder dataclass `_HTML_ATTRIBUTE`
(locator.py lines 163-183), holding only the chosen attribute name. -/
structure _HTML_ATTRIBUTE where
  name : String
deriving DecidableEq

/-- Second intermediate builder dataclass `_BY` (locator.py lines
186-255): the chosen attribute plus an optional By strategy (None until a
strategy is selected). -/
structure _BY where
  html_attribute : String
  by_ : Option String
deriving DecidableEq

/-- Singleton dataclass `_LOCATE` (locator.py lines 33-64) with its two
private fields, both None on the LOCATE constant. -/
structure _LOCATE where
  html_attribute_state : Option String
  by_state : Option String
deriving DecidableEq

/-- The `LOCATE` constant (locator.py line 258). -/
def LOCATE : _LOCATE := ⟨none, none⟩

/-- `_LOCATE.html_attribute` (locator.py lines 83-84): selecting an
attribute by name returns the first intermediate builder. -/
def _LOCATE.html_attribute (_l : _LOCATE) (html_attribute_name : String) : _HTML_ATTRIBUTE :=
  ⟨html_attribute_name⟩

/-- The `_LOCATE.TEXT` shortcut property (locator.py lines 150-152),
pre-registered for the full-text-content attribute. -/
def _LOCATE.TEXT (_l : _LOCATE) : _HTML_ATTRIBUTE :=
  ⟨"textContent"⟩

/-- `_LOCATE.__repr__` (locator.py lines 56-64): materialising the bare
singleton always raises, with a message naming the missing piece. -/
def _LOCATE.repr_ (l : _LOCATE) : Except LocatorNotDefinedError String :=
  match l.html_attribute_state with
  | none => Except.error ⟨"HTML attribute not defined."⟩
  | some _ =>
    match l.by_state with
    | none => Except.error ⟨"BY strategy not defined."⟩
    | some b => Except.error ⟨b ++ " not defined."⟩

/-- `_HTML_ATTRIBUTE.__repr__` (locator.py lines 172-173): materialising
the attribute-only builder raises, naming the missing By strategy. -/
def _HTML_ATTRIBUTE.repr_ (_a : _HTML_ATTRIBUTE) : Except LocatorNotDefinedError String :=
  Except.error ⟨"Locator must be given a By strategy."⟩

/-- The strategy-name normalisation `by.replace('_', ' ').lower()` of
`_HTML_ATTRIBUTE.by` (locator.py line 178), rendered character-wise: the
replacement pattern is the single character underscore and Python's lower
is per-character, so the two passes fuse into one map. -/
def normalize_by (s : String) : String :=
  String.mk (s.data.map (fun c => if c = '_' then ' ' else c.toLower))

/-- `_HTML_ATTRIBUTE.by` (locator.py lines 177-178): selecting a strategy
by name lower-cases it and replaces underscores with spaces. Named `by_`
because `by` is a Lean keyword. -/
def _HTML_ATTRIBUTE.by_ (a : _HTML_ATTRIBUTE) (b : String) : _BY :=
  ⟨a.name, some (normalize_by b)⟩

/-- The `_HTML_ATTRIBUTE.BY` property (locator.py lines 182-183): the
second intermediate builder with no strategy chosen yet. -/
def _HTML_ATTRIBUTE.BY (a : _HTML_ATTRIBUTE) : _BY :=
  ⟨a.name, none⟩

/-- `_BY.__call__` (locator.py lines 196-201): calling the builder with a
search value (and a default) materialises the Locator, or raises
LocatorNotDefinedError when no By strategy was chosen. -/
def _BY.call (b : _BY) (value : String) (default_if_not_found : Cell) :
    Except LocatorNotDefinedError Locator :=
  match b.by_ with
  | none => Except.error ⟨"Locator must be given a By strategy."⟩
  | some s => Except.ok ⟨b.html_attribute, s, value, default_if_not_found⟩

/-- `_BY.__repr__` (locator.py lines 204-205). -/
def _BY.repr_ (_b : _BY) : Except LocatorNotDefinedError String :=
  Except.error ⟨"Locator must be given a By strategy."⟩

/-- The `_BY.CSS_SELECTOR` shortcut property (locator.py lines 229-231):
sets the strategy from the property name, lower-cased with underscores
replaced by spaces. -/
def _BY.CSS_SELECTOR (b : _BY) : _BY :=
  ⟨b.html_attribute, some "css selector"⟩

/-- Descriptor shape consumed by `ScrapingMethod.from_pages`: the four
Locator fields plus the `convert_to_type` attribute read at
scraper.py line 97. locator.py's Locator does not declare that attribute
(duck typing); it is modelled as an optional extension field, `none`
meaning no conversion attached. A conversion either returns a value
(`Except.ok`, possibly Python None) or raises (`Except.error`). -/
structure MethodLocator extends Locator where
  convert_to_type : Option (String → Except Unit Cell)

/-- A FieldSet: the `locators` dictionary of column names and their
descriptors, in insertion order (Python dicts preserve it). -/
abbrev MethodFieldSet := List (String × MethodLocator)

/-- The column-oriented record table `__data` (scraper.py lines 57-60):
field name → ordered list of cells. Keys that were never appended to map
to the empty column. -/
abbrev Table := String → List Cell

/-- The empty table created by `ScrapingMethod.__init__` (scraper.py
lines 57-60): one empty list per column. -/
def initTable : Table := fun _ => []

/-- `self.__data[column_name].append(row_data)` (scraper.py line 119). -/
def appendCell (data : Table) (column_name : String) (v : Cell) : Table :=
  fun k => if k = column_name then data k ++ [v] else data k

/-- Per-field body of the inner loop of `ScrapingMethod.from_pages`
(scraper.py lines 96-118): `row_data = None`; try
find_element + get_attribute with NoSuchElementException caught; if
row_data is None fall back to the default; otherwise, when a
convert_to_type is attached, apply it, catching any conversion failure
and keeping the raw string in that case. -/
def extract_field (env : LocateEnv) (url : String) (loc : MethodLocator) : Cell :=
  let row_data : Option String :=
    match env url loc.by_ loc.value loc.html_attribute with
    | LocateResult.notFound => none
    | LocateResult.found a => a
  match row_data with
  | none => loc.default_if_not_found
  | some raw =>
    match loc.convert_to_type with
    | none => some (PyVal.str raw)
    | some f =>
      match f raw with
      | Except.error _ => some (PyVal.str raw)
      | Except.ok v => v

/-- One page of `ScrapingMethod.from_pages` (scraper.py lines 86-119):
navigate and settle (external, dropped), append a fresh uuid to the
reserved uuid column, then append one extracted cell per field of the
locator dictionary, in its order. -/
def processPage (locs : MethodFieldSet) (env : LocateEnv) (uuid : String)
    (url : String) (data : Table) : Table :=
  locs.foldl (fun t p => appendCell t p.1 (extract_field env url p.2))
    (appendCell data "uuid" (some (PyVal.str uuid)))

/-- The page loop of `ScrapingMethod.from_pages`, threading the count of
uuids generated so far through the injected uuid sequence. -/
def runPages (locs : MethodFieldSet) (env : LocateEnv) (uuidSeq : Nat → String) :
    Nat → List String → Table → Table
  | _, [], data => data
  | n, url :: rest, data =>
      runPages locs env uuidSeq (n + 1) rest (processPage locs env (uuidSeq n) url data)

/-- `ScrapingMethod.from_pages` (scraper.py lines 63-126): de-duplicate
the input with set semantics (`urls = list(set(urls))`, line 84 —
modelled with List.dedup), then run the page loop over the result.
Dumping is modelled separately in `ScrapingMethod.from_pages_full`. -/
def ScrapingMethod.from_pages (locs : MethodFieldSet) (env : LocateEnv)
    (uuidSeq : Nat → String) (urls : List String) (data : Table) : Table :=
  runPages locs env uuidSeq 0 urls.dedup data

/-- Outcomes of the external effects performed by `ScrapingMethod.dump`:
directory creation (os.makedirs, scraper.py line 146), the JSON file
write (lines 153-154) and the S3 upload (lines 156-163). -/
structure DumpEnv where
  makedirs_ok : Bool
  write_ok : Bool
  upload_ok : Bool
deriving DecidableEq

/-- Body of the try block of `ScrapingMethod.dump` (scraper.py lines
152-165): write the JSON file, then upload it when a bucket name is
given; either step may raise. -/
def dump_try_body (denv : DumpEnv) (s3_bucket_name : Option String) : Except String Unit :=
  if denv.write_ok then
    match s3_bucket_name with
    | some _bucket => if denv.upload_ok then Except.ok () else Except.error "upload failed"
    | none => Except.ok ()
  else Except.error "write failed"

/-- `ScrapingMethod.dump` (scraper.py lines 129-169): os.makedirs runs
before the try block, so its failure propagates; any exception of the
write/upload body is caught and logged (lines 167-169). The stored table
is passed through unchanged — dump never mutates `__data`. -/
def ScrapingMethod.dump (denv : DumpEnv) (s3_bucket_name : Option String)
    (data : Table) : Except String Table :=
  if denv.makedirs_ok then
    match dump_try_body denv s3_bucket_name with
    | Except.ok _ => Except.ok data
    | Except.error _e => Except.ok data
  else Except.error "makedirs failed"

/-- `ScrapingMethod.from_pages` including its optional dump step
(scraper.py lines 123-126): scrape, then when dump_json is set call dump,
and return the accumulated table. An exception escaping dump would
propagate out of from_pages. -/
def ScrapingMethod.from_pages_full (locs : MethodFieldSet) (env : LocateEnv)
    (uuidSeq : Nat → String) (denv : DumpEnv) (dump_json : Bool)
    (s3_bucket_name : Option String) (urls : List String) (data : Table) :
    Except String Table :=
  let result := ScrapingMethod.from_pages locs env uuidSeq urls data
  if dump_json then
    match ScrapingMethod.dump denv s3_bucket_name result with
    | Except.ok _ => Except.ok result
    | Except.error e => Except.error e
  else Except.ok result

/-- Keyword-argument values accepted by `Scraper.create_scraping_method`
(scraper.py line 560): a Locator, or an ordered 2- or 3-tuple. -/
inductive LocatorLike where
  | loc : Locator → LocatorLike
  | tuple2 : String → String → LocatorLike
  | tuple3 : String → String → String → LocatorLike
deriving DecidableEq

/-- Tuple normalisation of `Scraper.create_scraping_method` (scraper.py
lines 593-607): a 2-tuple (strategy, value) becomes
`LOCATE.html_attribute('textContent').by(strategy)(value)`, a 3-tuple
(html_attribute, strategy, value) becomes
`LOCATE.html_attribute(html_attribute).by(strategy)(value)`; anything
else is left as given. The error branches of the builder call are
unreachable here because `by` always sets a strategy. -/
def coerce_locator : LocatorLike → LocatorLike
  | LocatorLike.tuple2 strategy value =>
    match ((LOCATE.html_attribute "textContent").by_ strategy).call value none with
    | Except.ok L => LocatorLike.loc L
    | Except.error _ => LocatorLike.tuple2 strategy value
  | LocatorLike.tuple3 html_attribute strategy value =>
    match ((LOCATE.html_attribute html_attribute).by_ strategy).call value none with
    | Except.ok L => LocatorLike.loc L
    | Except.error _ => LocatorLike.tuple3 html_attribute strategy value
  | l => l

/-- `Scraper.create_scraping_method` (scraper.py lines 560-609): apply
the tuple normalisation to every keyword argument, then hand the locator
dictionary to the ScrapingMethod. -/
def Scraper.create_scraping_method (locators : List (String × LocatorLike)) :
    List (String × LocatorLike) :=
  locators.map (fun p => (p.1, coerce_locator p.2))

/-- The `by` argument of Scraper's element methods (scraper.py): either a
plain strategy string or a Locator object. -/
inductive ByArg where
  | strategy : String → ByArg
  | locator : Locator → ByArg
deriving DecidableEq

/-- `Scraper.find_element` (scraper.py lines 336-357): a string `by` with
value None raises LocatorNotDefinedError before the driver lookup; a
Locator `by` replaces both by and value with the Locator's stored fields.
The result models the (by, value) pair handed to the external driver. -/
def Scraper.find_element (b : ByArg) (value : Option String) :
    Except LocatorNotDefinedError (String × String) :=
  match b with
  | ByArg.strategy s =>
    match value with
    | none => Except.error ⟨s ++ " not defined."⟩
    | some v => Except.ok (s, v)
  | ByArg.locator L => Except.ok (L.by_, L.value)

/-- `Scraper.find_elements` (scraper.py lines 360-386): same locator
resolution prologue as find_element; the driver list lookup and the
empty-result log line are external. -/
def Scraper.find_elements (b : ByArg) (value : Option String) :
    Except LocatorNotDefinedError (String × String) :=
  match b with
  | ByArg.strategy s =>
    match value with
    | none => Except.error ⟨s ++ " not defined."⟩
    | some v => Except.ok (s, v)
  | ByArg.locator L => Except.ok (L.by_, L.value)

/-- `Scraper.click_element` (scraper.py lines 389-412): same locator
resolution prologue; the driver find-and-click is external. -/
def Scraper.click_element (b : ByArg) (value : Option String) :
    Except LocatorNotDefinedError (String × String) :=
  match b with
  | ByArg.strategy s =>
    match value with
    | none => Except.error ⟨s ++ " not defined."⟩
    | some v => Except.ok (s, v)
  | ByArg.locator L => Except.ok (L.by_, L.value)

/-- Locator resolution prologue of `Scraper.retrieve_urls` (scraper.py
lines 461-468): identical to find_element's; the subsequent
driver-dependent URL collection (limit and pagination loops) is
external. -/
def Scraper.retrieve_urls (b : ByArg) (value : Option String) :
    Except LocatorNotDefinedError (String × String) :=
  match b with
  | ByArg.strategy s =>
    match value with
    | none => Except.error ⟨s ++ " not defined."⟩
    | some v => Except.ok (s, v)
  | ByArg.locator L => Except.ok (L.by_, L.value)

/-- A ScrapeData FieldSet (scrape_data.py): column names with plain
Locator descriptors — this earlier iteration reads no convert_to_type. -/
abbrev DataFieldSet := List (String × Locator)

/-- Per-field body of the inner loop of `ScrapeData.from_pages`
(scrape_data.py lines 80-96). Unlike scraper.py, `row_data` is never
initialised: `prev` carries the binding of the function-scoped variable
from the previous iteration (`none` = still unbound). On
NoSuchElementException the stale binding survives; if it is unbound, the
later `if row_data is None` raises UnboundLocalError (`Except.error`).
Returns the appended cell and the new binding. -/
def sdField (env : LocateEnv) (url : String) (loc : Locator) (prev : Option Cell) :
    Except Unit (Cell × Option Cell) :=
  let row_data : Option Cell :=
    match env url loc.by_ loc.value loc.html_attribute with
    | LocateResult.notFound => prev
    | LocateResult.found a => some (a.map PyVal.str)
  match row_data with
  | none => Except.error ()
  | some c =>
    let c2 : Cell :=
      match c with
      | none => loc.default_if_not_found
      | some v => some v
    Except.ok (c2, some c2)

/-- Field loop of `ScrapeData.from_pages` for one page, threading the
`row_data` binding and the table. -/
def sdFields (env : LocateEnv) (url : String) :
    DataFieldSet → Option Cell → Table → Except Unit (Option Cell × Table)
  | [], prev, data => Except.ok (prev, data)
  | (column_name, loc) :: rest, prev, data =>
    match sdField env url loc prev with
    | Except.error e => Except.error e
    | Except.ok (c, prev2) => sdFields env url rest prev2 (appendCell data column_name c)

/-- Page loop of `ScrapeData.from_pages` (scrape_data.py lines 71-96):
navigate (external), append a fresh uuid, then run the field loop; the
`row_data` binding persists across pages because it is function-scoped. -/
def sdPages (locs : DataFieldSet) (env : LocateEnv) (uuidSeq : Nat → String) :
    List String → Nat → Option Cell → Table → Except Unit Table
  | [], _, _, data => Except.ok data
  | url :: rest, n, prev, data =>
    match sdFields env url locs prev (appendCell data "uuid" (some (PyVal.str (uuidSeq n)))) with
    | Except.error e => Except.error e
    | Except.ok (prev2, data2) => sdPages locs env uuidSeq rest (n + 1) prev2 data2

/-- `ScrapeData.from_pages` (scrape_data.py lines 52-103): iterate the
input url list as given — this iteration performs no de-duplication. An
uncaught UnboundLocalError aborts the run (`Except.error`). -/
def ScrapeData.from_pages (locs : DataFieldSet) (env : LocateEnv)
    (uuidSeq : Nat → String) (urls : List String) (data : Table) : Except Unit Table :=
  sdPages locs env uuidSeq urls 0 none data

/- Concrete fixtures used by witness and counterexample theorems. -/

/-- A deterministic stand-in for the uuid4 sequence. -/
def uuidW : Nat → String := fun n => "urn:uuid:" ++ toString n

/-- A concrete method descriptor: textContent by css selector, default
"N/A", no conversion attached. -/
def locTitleW : MethodLocator :=
  ⟨⟨"textContent", "css selector", "h2.title", some (PyVal.str "N/A")⟩, none⟩

/-- A concrete method descriptor under the reserved column name, for the
uuid-collision runs. -/
def locUuidW : MethodLocator :=
  ⟨⟨"href", "css selector", "a.uuid", none⟩, none⟩

/-- An environment in which every lookup finds an element whose requested
attribute is "Alpha". -/
def envFoundW : LocateEnv := fun _ _ _ _ => LocateResult.found (some "Alpha")

/-- An environment in which every lookup raises NoSuchElementException. -/
def envMissW : LocateEnv := fun _ _ _ _ => LocateResult.notFound

/-- Plain Locator descriptors for the ScrapeData runs. -/
def locF1W : Locator :=
  ⟨"textContent", "css selector", "h2.f1", some (PyVal.str "D1")⟩

/-- Second plain Locator, default "N/A". -/
def locF2W : Locator :=
  ⟨"textContent", "css selector", "h2.f2", some (PyVal.str "N/A")⟩

/-- Environment for the stale-value run: the first field's selector is
found with text "X", every other lookup misses. -/
def envStaleW : LocateEnv := fun _ _ v _ =>
  if v = "h2.f1" then LocateResult.found (some "X") else LocateResult.notFound

/-- A conversion function that raises on every input. -/
def convFailW : String → Except Unit Cell := fun _ => Except.error ()

/-- A descriptor with the failing conversion attached. -/
def locConvW : MethodLocator :=
  ⟨⟨"textContent", "css selector", "h2.price", some (PyVal.str "N/A")⟩, some convFailW⟩

/-- Environment where every lookup finds an element with raw attribute
value "12a". -/
def envRawW : LocateEnv := fun _ _ _ _ => LocateResult.found (some "12a")

/-- Number of occurrences of a column name among the keys of a field
list. Python dicts have unique keys, so for a genuine FieldSet this is at
most one. -/
def countKey {α : Type} : List (String × α) → String → Nat
  | [], _ => 0
  | p :: rest, k => (if p.1 = k then 1 else 0) + countKey rest k

theorem countKey_eq_zero {α : Type} :
    ∀ (locs : List (String × α)) (k : String),
      k ∉ locs.map Prod.fst → countKey locs k = 0 := by
  intro locs
  induction locs with
  | nil => intro k _; rfl
  | cons p rest ih =>
    intro k hk
    simp only [List.map_cons, List.mem_cons, not_or] at hk
    have h1 : ¬ p.1 = k := fun h => hk.1 h.symm
    simp [countKey, h1, ih k hk.2]

theorem countKey_eq_one {α : Type} :
    ∀ (locs : List (String × α)) (k : String),
      (locs.map Prod.fst).Nodup → k ∈ locs.map Prod.fst → countKey locs k = 1 := by
  intro locs
  induction locs with
  | nil => intro k _ hk; simp at hk
  | cons p rest ih =>
    intro k hnd hk
    simp only [List.map_cons, List.nodup_cons] at hnd
    simp only [List.map_cons, List.mem_cons] at hk
    rcases hk with hk | hk
    · have h0 : countKey rest k = 0 := by
        apply countKey_eq_zero
        rw [hk]
        exact hnd.1
      simp [countKey, hk.symm, h0]
    · have h1 : ¬ p.1 = k := by
        intro h
        exact hnd.1 (h ▸ hk)
      simp [countKey, h1, ih k hnd.2 hk]

theorem appendCell_length (data : Table) (c : String) (v : Cell) (k : String) :
    ((appendCell data c v) k).length = (data k).length + (if k = c then 1 else 0) := by
  by_cases h : k = c <;> simp [appendCell, h]

/-- Columns only grow at the end: the result of appendCell at any key is
the old column followed by what appendCell appends to the empty table. -/
theorem appendCell_decompose (data : Table) (c : String) (v : Cell) (k : String) :
    (appendCell data c v) k = data k ++ (appendCell initTable c v) k := by
  by_cases h : k = c <;> simp [appendCell, initTable, h]

/-- Length of any column after the per-page field fold: one new cell per
occurrence of the key in the field list, for any cell-producing
function. -/
theorem foldFields_length {α : Type} (g : String × α → Cell) :
    ∀ (locs : List (String × α)) (data : Table) (k : String),
      ((locs.foldl (fun t p => appendCell t p.1 (g p)) data) k).length
        = (data k).length + countKey locs k := by
  intro locs
  induction locs with
  | nil => intro data k; simp [countKey]
  | cons p rest ih =>
    intro data k
    simp only [List.foldl_cons]
    rw [ih, appendCell_length]
    by_cases h : k = p.1
    · simp [countKey, h]
      omega
    · have h2 : ¬ p.1 = k := fun hh => h hh.symm
      simp [countKey, h, h2]

/-- The per-page field fold only appends: at any key, the result is the
old column followed by the cells the same fold appends to the empty
table. -/
theorem foldFields_decompose {α : Type} (g : String × α → Cell) :
    ∀ (locs : List (String × α)) (data : Table) (k : String),
      (locs.foldl (fun t p => appendCell t p.1 (g p)) data) k
        = data k ++ (locs.foldl (fun t p => appendCell t p.1 (g p)) initTable) k := by
  intro locs
  induction locs with
  | nil => intro data k; simp [initTable]
  | cons p rest ih =>
    intro data k
    simp only [List.foldl_cons]
    rw [ih, ih (appendCell initTable p.1 (g p)) k, appendCell_decompose]
    simp [List.append_assoc]

theorem processPage_length (locs : MethodFieldSet) (env : LocateEnv)
    (uuid url : String) (data : Table) (k : String) :
    ((processPage locs env uuid url data) k).length
      = (data k).length + ((if k = "uuid" then 1 else 0) + countKey locs k) := by
  unfold processPage
  rw [foldFields_length, appendCell_length]
  omega

theorem processPage_decompose (locs : MethodFieldSet) (env : LocateEnv)
    (uuid url : String) (data : Table) (k : String) :
    (processPage locs env uuid url data) k
      = data k ++ (processPage locs env uuid url initTable) k := by
  unfold processPage
  rw [foldFields_decompose, foldFields_decompose
    (fun p => extract_field env url p.2) locs (appendCell initTable "uuid" (some (PyVal.str uuid))),
    appendCell_decompose]
  simp [List.append_assoc]

/-- Length of any column after the page loop: each processed page adds
one cell for the reserved uuid column plus one per occurrence of the key
in the field list. -/
theorem runPages_length (locs : MethodFieldSet) (env : LocateEnv) (uuidSeq : Nat → String) :
    ∀ (urls : List String) (n : Nat) (data : Table) (k : String),
      ((runPages locs env uuidSeq n urls data) k).length
        = (data k).length
          + urls.length * ((if k = "uuid" then 1 else 0) + countKey locs k) := by
  intro urls
  induction urls with
  | nil => intro n data k; simp [runPages]
  | cons url rest ih =>
    intro n data k
    rw [runPages, ih, processPage_length]
    simp only [List.length_cons]
    ring

/-- The page loop is a fold: running over a concatenation is running over
the first part and continuing, with the uuid counter advanced by the
number of pages already processed. This makes "the state of the run after
j pages" a statement about `runPages` over the prefix. -/
theorem runPages_split (locs : MethodFieldSet) (env : LocateEnv) (uuidSeq : Nat → String) :
    ∀ (l1 l2 : List String) (n : Nat) (data : Table),
      runPages locs env uuidSeq n (l1 ++ l2) data
        = runPages locs env uuidSeq (n + l1.length) l2 (runPages locs env uuidSeq n l1 data) := by
  intro l1
  induction l1 with
  | nil => intro l2 n data; simp [runPages]
  | cons url rest ih =>
    intro l2 n data
    have step1 : runPages locs env uuidSeq n ((url :: rest) ++ l2) data
        = runPages locs env uuidSeq (n + 1) (rest ++ l2)
            (processPage locs env (uuidSeq n) url data) := rfl
    have step2 : runPages locs env uuidSeq n (url :: rest) data
        = runPages locs env uuidSeq (n + 1) rest
            (processPage locs env (uuidSeq n) url data) := rfl
    have harith : n + (url :: rest).length = n + 1 + rest.length := by
      simp only [List.length_cons]
      omega
    rw [step1, ih, step2, harith]

/-- The page loop only appends: at any key, the result is the old column
followed by the cells the same loop appends to the empty table. -/
theorem runPages_decompose (locs : MethodFieldSet) (env : LocateEnv) (uuidSeq : Nat → String) :
    ∀ (urls : List String) (n : Nat) (data : Table) (k : String),
      (runPages locs env uuidSeq n urls data) k
        = data k ++ (runPages locs env uuidSeq n urls initTable) k := by
  intro urls
  induction urls with
  | nil => intro n data k; simp [runPages, initTable]
  | cons url rest ih =>
    intro n data k
    simp only [runPages]
    rw [ih, ih (n + 1) (processPage locs env (uuidSeq n) url initTable) k,
      processPage_decompose]
    simp [List.append_assoc]

/-- Length of any column after ScrapeData's field loop, when the loop
completes without an UnboundLocalError. -/
theorem sdFields_length (env : LocateEnv) (url : String) :
    ∀ (locs : DataFieldSet) (prev : Option Cell) (data : Table)
      (res : Option Cell × Table),
      sdFields env url locs prev data = Except.ok res →
      ∀ k, (res.2 k).length = (data k).length + countKey locs k := by
  intro locs
  induction locs with
  | nil =>
    intro prev data res h k
    simp only [sdFields, Except.ok.injEq] at h
    rw [← h]
    simp [countKey]
  | cons p rest ih =>
    intro prev data res h k
    obtain ⟨column_name, loc⟩ := p
    simp only [sdFields] at h
    cases hf : sdField env url loc prev with
    | error e =>
      rw [hf] at h
      exact absurd h (by simp)
    | ok cp =>
      obtain ⟨c, prev2⟩ := cp
      rw [hf] at h
      have hrec := ih prev2 (appendCell data column_name c) res h k
      rw [hrec, appendCell_length]
      by_cases hk : k = column_name
      · simp [countKey, hk]
        omega
      · have hk2 : ¬ column_name = k := fun hh => hk hh.symm
        simp [countKey, hk, hk2]

/-- Length of any column after ScrapeData's page loop, when the run
completes: one uuid cell plus one cell per key occurrence, per page of
the input list as given — no de-duplication happens in this iteration. -/
theorem sdPages_length (locs : DataFieldSet) (env : LocateEnv) (uuidSeq : Nat → String) :
    ∀ (urls : List String) (n : Nat) (prev : Option Cell) (data : Table) (t : Table),
      sdPages locs env uuidSeq urls n prev data = Except.ok t →
      ∀ k, (t k).length
        = (data k).length + urls.length * ((if k = "uuid" then 1 else 0) + countKey locs k) := by
  intro urls
  induction urls with
  | nil =>
    intro n prev data t h k
    simp only [sdPages, Except.ok.injEq] at h
    rw [← h]
    simp
  | cons url rest ih =>
    intro n prev data t h k
    simp only [sdPages] at h
    cases hf : sdFields env url locs prev
        (appendCell data "uuid" (some (PyVal.str (uuidSeq n)))) with
    | error e =>
      rw [hf] at h
      exact absurd h (by simp)
    | ok pr =>
      obtain ⟨prev2, data2⟩ := pr
      rw [hf] at h
      have hfl := sdFields_length env url locs prev _ (prev2, data2) hf k
      have hrec := ih (n + 1) prev2 data2 t h k
      rw [hrec]
      simp only at hfl
      rw [hfl, appendCell_length]
      simp only [List.length_cons]
      ring

/-- With pairwise-distinct keys none of which is "uuid", every relevant
column (the reserved uuid column and each declared field) gains exactly
one cell per page. -/
theorem columnWeight_eq_one {α : Type} (locs : List (String × α)) (k : String)
    (hkeys : (locs.map Prod.fst).Nodup) (huuid : "uuid" ∉ locs.map Prod.fst)
    (hk : k ∈ "uuid" :: locs.map Prod.fst) :
    ((if k = "uuid" then 1 else 0) + countKey locs k) = 1 := by
  rcases List.mem_cons.mp hk with hk | hk
  · subst hk
    simp [countKey_eq_zero locs _ huuid]
  · have hne : ¬ k = "uuid" := fun h => huuid (h ▸ hk)
    simp [hne, countKey_eq_one locs k hkeys hk]

/-- Claim C1: for every FieldSet with no field named "uuid" and every
input list of M pairwise-distinct page addresses, a run of
ScrapingMethod.from_pages in which every navigation succeeds produces a
table in which every declared column and the reserved uuid column have
exactly M entries; moreover, at every row boundary j the full run equals
continuing from the state after the first j pages, and in that state
every such column has exactly j entries — the equal-length invariant
holds at every row boundary during the run. -/
theorem C1_every_column_has_M_entries
    (locs : MethodFieldSet) (env : LocateEnv) (uuidSeq : Nat → String)
    (urls : List String) (M : Nat)
    (hnodup : urls.Nodup) (hM : urls.length = M)
    (hkeys : (locs.map Prod.fst).Nodup)
    (huuid : "uuid" ∉ locs.map Prod.fst) :
    (∀ k, k ∈ "uuid" :: locs.map Prod.fst →
        ((ScrapingMethod.from_pages locs env uuidSeq urls initTable) k).length = M)
    ∧ (∀ j, j ≤ M →
        ScrapingMethod.from_pages locs env uuidSeq urls initTable
          = runPages locs env uuidSeq j (urls.drop j)
              (runPages locs env uuidSeq 0 (urls.take j) initTable)
        ∧ ∀ k, k ∈ "uuid" :: locs.map Prod.fst →
            ((runPages locs env uuidSeq 0 (urls.take j) initTable) k).length = j) := by
  have hded : urls.dedup = urls := List.dedup_eq_self.mpr hnodup
  constructor
  · intro k hk
    unfold ScrapingMethod.from_pages
    rw [hded, runPages_length, columnWeight_eq_one locs k hkeys huuid hk]
    simp [initTable, hM]
  · intro j hj
    have hlen : (urls.take j).length = j := by
      rw [List.length_take]
      omega
    constructor
    · have hsplit := runPages_split locs env uuidSeq (urls.take j) (urls.drop j) 0 initTable
      rw [List.take_append_drop, hlen, Nat.zero_add] at hsplit
      unfold ScrapingMethod.from_pages
      rw [hded]
      exact hsplit
    · intro k hk
      rw [runPages_length, columnWeight_eq_one locs k hkeys huuid hk]
      simp [initTable, hlen]

/-- Witness for C1 at a concrete FieldSet with one field, two distinct
pages and an environment in which every field is found. -/
theorem C1_witness :
    (∀ k, k ∈ "uuid" :: ([("title", locTitleW)].map Prod.fst) →
        ((ScrapingMethod.from_pages [("title", locTitleW)] envFoundW uuidW
            ["a.html", "b.html"] initTable) k).length = 2)
    ∧ (∀ j, j ≤ 2 →
        ScrapingMethod.from_pages [("title", locTitleW)] envFoundW uuidW
            ["a.html", "b.html"] initTable
          = runPages [("title", locTitleW)] envFoundW uuidW j (["a.html", "b.html"].drop j)
              (runPages [("title", locTitleW)] envFoundW uuidW 0
                (["a.html", "b.html"].take j) initTable)
        ∧ ∀ k, k ∈ "uuid" :: ([("title", locTitleW)].map Prod.fst) →
            ((runPages [("title", locTitleW)] envFoundW uuidW 0
                (["a.html", "b.html"].take j) initTable) k).length = j) :=
  C1_every_column_has_M_entries [("title", locTitleW)] envFoundW uuidW
    ["a.html", "b.html"] 2 (by decide) (by decide) (by decide) (by decide)

/-- Claim C2 (code bug in scrape_data.py): `row_data` is never
initialised in ScrapeData.from_pages, so a locate miss does abort the run
when it hits the first scraped field of the run (Python raises
UnboundLocalError at `if row_data is None`), and a miss on a later field
appends the previous field's stale value instead of the descriptor's
default. This theorem evaluates ScrapeData.from_pages at both failing
inputs: a one-field run whose only lookup misses aborts, and a two-field
run where f1 is found with "X" and f2 misses puts "X" — not the default
"N/A" — into f2's column. scraper.py's later iteration initialises
`row_data = None` (line 98) and behaves as the claim states. -/
theorem C2_locate_miss_aborts_or_reuses_stale_value :
    ScrapeData.from_pages [("f1", locF1W)] envMissW uuidW ["p1.html"] initTable
      = Except.error ()
    ∧ (ScrapeData.from_pages [("f1", locF1W), ("f2", locF2W)] envStaleW uuidW
        ["p1.html"] initTable).map (fun t => (t "f1", t "f2"))
      = Except.ok ([some (PyVal.str "X")], [some (PyVal.str "X")])
    ∧ locF2W.default_if_not_found = some (PyVal.str "N/A") :=
  ⟨rfl, rfl, rfl⟩

/-- Counterexample to claim C3 as stated: ScrapeData.from_pages
(scrape_data.py), submitted the list ["a.html", "a.html"], appends one
row per input element — its only column ends with 2 entries although the
list has 1 distinct address. No de-duplication happens in that
iteration. -/
theorem C3_counterexample :
    (ScrapeData.from_pages [("f1", locF1W)] envStaleW uuidW ["a.html", "a.html"]
        initTable).map (fun t => (t "f1").length)
      = Except.ok 2
    ∧ (["a.html", "a.html"] : List String).toFinset.card = 1 :=
  ⟨rfl, by decide⟩

/-- Claim C3 (amended): ScrapingMethod.from_pages (scraper.py) does
de-duplicate its input with set semantics, so every column of a run from
the empty table gets one entry per distinct address; ScrapeData.from_pages
(scrape_data.py) performs no de-duplication, so every column of a
completed run gets one entry per input-list element. -/
theorem C3_dedup_amended
    (locs : MethodFieldSet) (env : LocateEnv) (uuidSeq : Nat → String)
    (urls : List String)
    (hkeys : (locs.map Prod.fst).Nodup) (huuid : "uuid" ∉ locs.map Prod.fst)
    (sdlocs : DataFieldSet) (env2 : LocateEnv) (uuidSeq2 : Nat → String)
    (urls2 : List String)
    (hkeys2 : (sdlocs.map Prod.fst).Nodup) (huuid2 : "uuid" ∉ sdlocs.map Prod.fst) :
    (∀ k, k ∈ "uuid" :: locs.map Prod.fst →
        ((ScrapingMethod.from_pages locs env uuidSeq urls initTable) k).length
          = urls.toFinset.card)
    ∧ (∀ t, ScrapeData.from_pages sdlocs env2 uuidSeq2 urls2 initTable = Except.ok t →
        ∀ k, k ∈ "uuid" :: sdlocs.map Prod.fst → (t k).length = urls2.length) := by
  constructor
  · intro k hk
    unfold ScrapingMethod.from_pages
    rw [runPages_length, columnWeight_eq_one locs k hkeys huuid hk, List.card_toFinset]
    simp [initTable]
  · intro t ht k hk
    have := sdPages_length sdlocs env2 uuidSeq2 urls2 0 none initTable t ht k
    rw [this, columnWeight_eq_one sdlocs k hkeys2 huuid2 hk]
    simp [initTable]

/-- Witness for C3 (amended) at concrete runs: a ScrapingMethod run over
["a.html", "a.html", "b.html"] and a completed ScrapeData run over
["a.html", "a.html"]. -/
theorem C3_witness :
    (∀ k, k ∈ "uuid" :: ([("title", locTitleW)].map Prod.fst) →
        ((ScrapingMethod.from_pages [("title", locTitleW)] envFoundW uuidW
            ["a.html", "a.html", "b.html"] initTable) k).length
          = (["a.html", "a.html", "b.html"] : List String).toFinset.card)
    ∧ (∀ t, ScrapeData.from_pages [("f1", locF1W)] envStaleW uuidW
          ["a.html", "a.html"] initTable = Except.ok t →
        ∀ k, k ∈ "uuid" :: ([("f1", locF1W)].map Prod.fst) →
          (t k).length = (["a.html", "a.html"] : List String).length) :=
  C3_dedup_amended [("title", locTitleW)] envFoundW uuidW ["a.html", "a.html", "b.html"]
    (by decide) (by decide) [("f1", locF1W)] envStaleW uuidW ["a.html", "a.html"]
    (by decide) (by decide)

/-- Claim C4: when the element is found and the raw attribute value is
non-null, an attached type conversion that raises is caught (the run
continues, `extract_field` is total) and the output cell keeps the
original raw string — not the descriptor's default and not an error; a
conversion that succeeds yields the converted value. -/
theorem C4_conversion_failure_keeps_raw
    (env : LocateEnv) (url : String) (loc : MethodLocator)
    (f : String → Except Unit Cell) (raw : String)
    (hconv : loc.convert_to_type = some f)
    (hfound : env url loc.by_ loc.value loc.html_attribute
      = LocateResult.found (some raw)) :
    (∀ e, f raw = Except.error e → extract_field env url loc = some (PyVal.str raw))
    ∧ (∀ v, f raw = Except.ok v → extract_field env url loc = v) := by
  constructor
  · intro e hf
    simp only [extract_field, hfound, hconv, hf]
  · intro v hf
    simp only [extract_field, hfound, hconv, hf]

/-- Witness for C4 at a concrete descriptor whose attached conversion
raises on the raw value "12a" found by the environment. -/
theorem C4_witness :
    (∀ e, convFailW "12a" = Except.error e →
        extract_field envRawW "p1.html" locConvW = some (PyVal.str "12a"))
    ∧ (∀ v, convFailW "12a" = Except.ok v →
        extract_field envRawW "p1.html" locConvW = v) :=
  C4_conversion_failure_keeps_raw envRawW "p1.html" locConvW convFailW "12a" rfl rfl

/-- Taking the length of the left part of a concatenation returns it. -/
theorem take_length_append {α : Type} (l1 l2 : List α) (M : Nat) (h : l1.length = M) :
    (l1 ++ l2).take M = l1 := by
  subst h
  induction l1 with
  | nil => simp
  | cons a rest ih => simp [ih]

/-- Claim C5: a builder chain that has selected an attribute but no
strategy cannot be used as a finished descriptor: calling the
intermediate builder with a search value raises LocatorNotDefinedError
and never yields a Locator, and materialising either intermediate stage
raises the same error. The message "Locator must be given a By strategy."
identifies the missing piece as the strategy, as opposed to the
attribute-missing message "HTML attribute not defined." raised by the
bare singleton. -/
theorem C5_incomplete_builder_raises (a v : String) (d : Cell) :
    ((LOCATE.html_attribute a).BY).call v d
        = Except.error ⟨"Locator must be given a By strategy."⟩
    ∧ (∀ L : Locator, ((LOCATE.html_attribute a).BY).call v d ≠ Except.ok L)
    ∧ (LOCATE.html_attribute a).repr_
        = Except.error ⟨"Locator must be given a By strategy."⟩
    ∧ ((LOCATE.html_attribute a).BY).repr_
        = Except.error ⟨"Locator must be given a By strategy."⟩
    ∧ LOCATE.repr_ = Except.error ⟨"HTML attribute not defined."⟩ := by
  refine ⟨rfl, ?_, rfl, rfl, rfl⟩
  intro L h
  simp [_LOCATE.html_attribute, _HTML_ATTRIBUTE.BY, _BY.call] at h

/-- Counterexample to claim C6 as stated: the 3-tuple
("href", "CSS_SELECTOR", "a.link") is not turned into a descriptor with
those three components — the strategy component is normalised (to
"css selector") on the way through the fluent builder's `by` method. -/
theorem C6_counterexample :
    coerce_locator (LocatorLike.tuple3 "href" "CSS_SELECTOR" "a.link")
        ≠ LocatorLike.loc ⟨"href", "CSS_SELECTOR", "a.link", none⟩
    ∧ coerce_locator (LocatorLike.tuple3 "href" "CSS_SELECTOR" "a.link")
        = LocatorLike.loc ⟨"href", "css selector", "a.link", none⟩ :=
  ⟨by decide, by decide⟩

/-- Claim C6 (amended): a 2-tuple keyword argument (strategy, value) is
normalised into a descriptor whose attribute is "textContent" and a
3-tuple (attribute, strategy, value) into one with that attribute and
value, where in both cases the strategy component is lower-cased with
underscores replaced by spaces; the result is exactly what the fluent
builder produces for the same inputs, with a null default. -/
theorem C6_tuple_normalisation_amended (kw html_attribute strategy value : String) :
    Scraper.create_scraping_method [(kw, LocatorLike.tuple2 strategy value)]
        = [(kw, LocatorLike.loc ⟨"textContent", normalize_by strategy, value, none⟩)]
    ∧ Scraper.create_scraping_method [(kw, LocatorLike.tuple3 html_attribute strategy value)]
        = [(kw, LocatorLike.loc ⟨html_attribute, normalize_by strategy, value, none⟩)]
    ∧ ((LOCATE.html_attribute html_attribute).by_ strategy).call value none
        = Except.ok ⟨html_attribute, normalize_by strategy, value, none⟩ :=
  ⟨rfl, rfl, rfl⟩

/-- Claim C7: for every outcome of the JSON file write and of the S3
upload, dump returns normally (the guarded body's failure is caught and
swallowed) with the stored table passed through unchanged, and from_pages
with dumping enabled returns the accumulated table whether or not the
write or upload succeeded. Directory creation — which scraper.py runs
before the guarded block — is assumed to succeed. -/
theorem C7_dump_failures_never_raised
    (denv : DumpEnv) (s3_bucket_name : Option String) (data : Table)
    (locs : MethodFieldSet) (env : LocateEnv) (uuidSeq : Nat → String)
    (urls : List String)
    (hmk : denv.makedirs_ok = true) :
    ScrapingMethod.dump denv s3_bucket_name data = Except.ok data
    ∧ ScrapingMethod.from_pages_full locs env uuidSeq denv true s3_bucket_name urls data
      = Except.ok (ScrapingMethod.from_pages locs env uuidSeq urls data) := by
  have hd : ∀ d : Table, ScrapingMethod.dump denv s3_bucket_name d = Except.ok d := by
    intro d
    unfold ScrapingMethod.dump
    rw [hmk]
    simp only [if_true]
    cases dump_try_body denv s3_bucket_name <;> rfl
  refine ⟨hd data, ?_⟩
  simp only [ScrapingMethod.from_pages_full, if_true, hd]

/-- Witness for C7 at a run whose file write and upload both fail. -/
theorem C7_witness :
    ScrapingMethod.dump ⟨true, false, false⟩ (some "my-bucket") initTable
      = Except.ok initTable
    ∧ ScrapingMethod.from_pages_full [("title", locTitleW)] envFoundW uuidW
        ⟨true, false, false⟩ true (some "my-bucket") ["a.html"] initTable
      = Except.ok (ScrapingMethod.from_pages [("title", locTitleW)] envFoundW uuidW
          ["a.html"] initTable) :=
  C7_dump_failures_never_raised ⟨true, false, false⟩ (some "my-bucket") initTable
    [("title", locTitleW)] envFoundW uuidW ["a.html"] rfl

/-- Claim C8: a locator mapping that itself contains the key "uuid" is
not rejected by ScrapingMethod — a run over M pairwise-distinct pages
appends two entries per page to the reserved uuid column (the generated
identifier, then the extracted value when the loop reaches the "uuid"
field) and one entry per page to every other column, so as soon as one
page is processed the equal-length invariant is broken. -/
theorem C8_uuid_key_breaks_invariant
    (locs : MethodFieldSet) (env : LocateEnv) (uuidSeq : Nat → String)
    (urls : List String) (M : Nat)
    (hnodup : urls.Nodup) (hM : urls.length = M)
    (hkeys : (locs.map Prod.fst).Nodup)
    (huuid : "uuid" ∈ locs.map Prod.fst) :
    ((ScrapingMethod.from_pages locs env uuidSeq urls initTable) "uuid").length = 2 * M
    ∧ (∀ k, k ∈ locs.map Prod.fst → k ≠ "uuid" →
        ((ScrapingMethod.from_pages locs env uuidSeq urls initTable) k).length = M)
    ∧ (0 < M → ∀ k, k ∈ locs.map Prod.fst → k ≠ "uuid" →
        ((ScrapingMethod.from_pages locs env uuidSeq urls initTable) "uuid").length
          ≠ ((ScrapingMethod.from_pages locs env uuidSeq urls initTable) k).length) := by
  have hded : urls.dedup = urls := List.dedup_eq_self.mpr hnodup
  have huuidlen :
      ((ScrapingMethod.from_pages locs env uuidSeq urls initTable) "uuid").length = 2 * M := by
    unfold ScrapingMethod.from_pages
    rw [hded, runPages_length, countKey_eq_one locs "uuid" hkeys huuid]
    simp [initTable, hM]
    omega
  have hother : ∀ k, k ∈ locs.map Prod.fst → k ≠ "uuid" →
      ((ScrapingMethod.from_pages locs env uuidSeq urls initTable) k).length = M := by
    intro k hk hne
    unfold ScrapingMethod.from_pages
    rw [hded, runPages_length, countKey_eq_one locs k hkeys hk]
    simp [initTable, hM, hne]
  refine ⟨huuidlen, hother, ?_⟩
  intro hm k hk hne
  rw [huuidlen, hother k hk hne]
  omega

/-- Witness for C8 at a locator mapping containing the key "uuid" and one
ordinary field, over one page. -/
theorem C8_witness :
    ((ScrapingMethod.from_pages [("uuid", locUuidW), ("title", locTitleW)] envFoundW uuidW
        ["a.html"] initTable) "uuid").length = 2 * 1
    ∧ (∀ k, k ∈ ([("uuid", locUuidW), ("title", locTitleW)].map Prod.fst) → k ≠ "uuid" →
        ((ScrapingMethod.from_pages [("uuid", locUuidW), ("title", locTitleW)] envFoundW uuidW
            ["a.html"] initTable) k).length = 1)
    ∧ (0 < 1 → ∀ k, k ∈ ([("uuid", locUuidW), ("title", locTitleW)].map Prod.fst) →
        k ≠ "uuid" →
        ((ScrapingMethod.from_pages [("uuid", locUuidW), ("title", locTitleW)] envFoundW uuidW
            ["a.html"] initTable) "uuid").length
          ≠ ((ScrapingMethod.from_pages [("uuid", locUuidW), ("title", locTitleW)] envFoundW uuidW
              ["a.html"] initTable) k).length) :=
  C8_uuid_key_breaks_invariant [("uuid", locUuidW), ("title", locTitleW)] envFoundW uuidW
    ["a.html"] 1 (by decide) (by decide) (by decide) (by decide)

/-- Claim C9: the record table is never reset between runs of the same
ScrapingMethod instance — after a run over M1 pairwise-distinct addresses
followed by a run over M2 pairwise-distinct addresses, every declared
column and the reserved uuid column hold M1 + M2 entries, and the first
M1 entries of each are exactly the first run's column, the second run's
rows being appended after them. -/
theorem C9_table_never_reset
    (locs : MethodFieldSet) (env1 env2 : LocateEnv) (u1 u2 : Nat → String)
    (urls1 urls2 : List String) (M1 M2 : Nat)
    (h1 : urls1.Nodup) (hM1 : urls1.length = M1)
    (h2 : urls2.Nodup) (hM2 : urls2.length = M2)
    (hkeys : (locs.map Prod.fst).Nodup) (huuid : "uuid" ∉ locs.map Prod.fst) :
    ∀ k, k ∈ "uuid" :: locs.map Prod.fst →
      ((ScrapingMethod.from_pages locs env2 u2 urls2
          (ScrapingMethod.from_pages locs env1 u1 urls1 initTable)) k).length = M1 + M2
      ∧ ((ScrapingMethod.from_pages locs env2 u2 urls2
          (ScrapingMethod.from_pages locs env1 u1 urls1 initTable)) k).take M1
        = (ScrapingMethod.from_pages locs env1 u1 urls1 initTable) k := by
  intro k hk
  have hw := columnWeight_eq_one locs k hkeys huuid hk
  have hfirst : ((ScrapingMethod.from_pages locs env1 u1 urls1 initTable) k).length = M1 := by
    unfold ScrapingMethod.from_pages
    rw [runPages_length, hw, List.dedup_eq_self.mpr h1]
    simp [initTable, hM1]
  have hlen : ((ScrapingMethod.from_pages locs env2 u2 urls2
      (ScrapingMethod.from_pages locs env1 u1 urls1 initTable)) k).length = M1 + M2 := by
    unfold ScrapingMethod.from_pages
    rw [runPages_length, hw, List.dedup_eq_self.mpr h2]
    unfold ScrapingMethod.from_pages at hfirst
    rw [hfirst]
    simp [hM2]
  refine ⟨hlen, ?_⟩
  have hdec := runPages_decompose locs env2 u2 urls2.dedup 0
    (ScrapingMethod.from_pages locs env1 u1 urls1 initTable) k
  unfold ScrapingMethod.from_pages at hdec hfirst ⊢
  rw [hdec]
  exact take_length_append _ _ M1 hfirst

/-- Witness for C9 at two concrete runs over one and two distinct
addresses, read off at the reserved uuid column. -/
theorem C9_witness :
    ((ScrapingMethod.from_pages [("title", locTitleW)] envMissW uuidW ["c.html", "d.html"]
        (ScrapingMethod.from_pages [("title", locTitleW)] envFoundW uuidW ["a.html"]
          initTable)) "uuid").length = 1 + 2
    ∧ ((ScrapingMethod.from_pages [("title", locTitleW)] envMissW uuidW ["c.html", "d.html"]
        (ScrapingMethod.from_pages [("title", locTitleW)] envFoundW uuidW ["a.html"]
          initTable)) "uuid").take 1
      = (ScrapingMethod.from_pages [("title", locTitleW)] envFoundW uuidW ["a.html"]
          initTable) "uuid" :=
  C9_table_never_reset [("title", locTitleW)] envFoundW envMissW uuidW uuidW
    ["a.html"] ["c.html", "d.html"] 1 2
    (by decide) (by decide) (by decide) (by decide) (by decide) (by decide)
    "uuid" (by decide)

/-- Claim C10: for each of find_element, find_elements, click_element and
retrieve_urls, a string `by` together with a None value raises
LocatorNotDefinedError — the Except short-circuits before any driver
lookup — while a Locator `by` resolves to the Locator's stored strategy
and value, whatever value argument was passed alongside it. -/
theorem C10_locator_resolution (s : String) (v : Option String) (L : Locator) :
    Scraper.find_element (ByArg.strategy s) none = Except.error ⟨s ++ " not defined."⟩
    ∧ Scraper.find_element (ByArg.locator L) v = Except.ok (L.by_, L.value)
    ∧ Scraper.find_elements (ByArg.strategy s) none = Except.error ⟨s ++ " not defined."⟩
    ∧ Scraper.find_elements (ByArg.locator L) v = Except.ok (L.by_, L.value)
    ∧ Scraper.click_element (ByArg.strategy s) none = Except.error ⟨s ++ " not defined."⟩
    ∧ Scraper.click_element (ByArg.locator L) v = Except.ok (L.by_, L.value)
    ∧ Scraper.retrieve_urls (ByArg.strategy s) none = Except.error ⟨s ++ " not defined."⟩
    ∧ Scraper.retrieve_urls (ByArg.locator L) v = Except.ok (L.by_, L.value) :=
  ⟨rfl, rfl, rfl, rfl, rfl, rfl, rfl, rfl⟩
